import Mathlib

/-!
Verification of the felt-dataset repository's two batch scripts.

The repository contains two standalone Python scripts:

* `src/0. remove video only file/remove_video_only_file.py` — a cleanup
  job that walks actor directories `Actor_01 .. Actor_24`, globs
  `02-*.mp4`, removes every match and counts deletions;
* `src/4. visualize result/ActionUnit/draw_AU(song).py` — a batch AU-video
  job: `main` enumerates (csv, mp4) tasks per actor and dispatches them to
  a pool; `generate_au_video_from_csv` skips a task whose output exists,
  otherwise loads the CSV, renders one figure per frame via
  `generate_au_plot_figures` (per-frame value errors are caught and
  recorded), and appends each figure to a video writer.

The embedding below models the external world explicitly: the per-frame
plotting call is an oracle `plot_ok : Nat → Bool` (false = the call raises
a value error for that frame), the fallible I/O calls (`read_feat`,
writer open / append / close) are `Except`-valued fields of a task
environment, and the observable actions of a task are collected in an
effect trace.  Figures are identified by the frame index they render.
-/

namespace FeltDataset

/-! ## Cleanup script: `remove_video_only_file.py` -/

/-- The glob pattern `02-*.mp4` applied to a single file name: the name
starts with `02-` and ends with `.mp4` (the `*` matches the middle; no
string shorter than 7 characters can satisfy both, so no extra length
guard is needed).  Stated on the character list of the name. -/
def matchGlob02 (name : String) : Bool :=
  let cs := name.toList
  (cs.take 3 == ['0', '2', '-']) && (cs.reverse.take 4 == ['4', 'p', 'm', '.'])

/-- `range(1, 25)` of the cleanup script's actor loop. -/
def RAVDESS_actor_indices : List Nat := List.range' 1 24

/-- One iteration of the cleanup loop at actor index `i`: the state is the
per-actor directory contents together with `delete_counter`.  The glob
matches of directory `i` are removed and counted. -/
def cleanupStep (st : (Nat → List String) × Nat) (i : Nat) :
    (Nat → List String) × Nat :=
  let files := st.1 i
  let matched := files.filter matchGlob02
  (fun j => if j = i then files.filter (fun f => !matchGlob02 f) else st.1 j,
   st.2 + matched.length)

/-- The whole cleanup script, run on an abstract file system `dirs`
mapping each actor index to the list of file names in its directory.
Returns the directory contents after the run and the final
`delete_counter`. -/
def remove_video_only_file (dirs : Nat → List String) :
    (Nat → List String) × Nat :=
  RAVDESS_actor_indices.foldl cleanupStep (dirs, 0)

/-! ## AU-video script: configuration constants -/

def csv_path : String := "F:/smoothed/"

def video_path : String := "F:/video/ActionUnit/"

def start_actor_num : Nat := 1

def end_actor_num : Nat := 25

/-- Module-level `isSong = False`. -/
def isSong : Bool := false

/-- Python `range(a, b)`. -/
def pyRange (a b : Nat) : List Nat := List.range' a (b - a)

/-! ## AU-video script: path construction helpers -/

/-- Python f-string `f"Actor_{i:02}"`: the index zero-padded to width 2. -/
def folderName (i : Nat) : String :=
  "Actor_" ++ (if i < 10 then "0" ++ toString i else toString i)

/-- `os.path.join` for the forward-slash paths used by the scripts. -/
def joinPath (a b : String) : String :=
  if b.startsWith "/" then b
  else if a = "" || a.endsWith "/" then a ++ b
  else a ++ "/" ++ b

/-- `os.path.basename`: the component after the last `/`. -/
def basename (p : String) : String :=
  (p.splitOn "/").getLastD p

/-- The stem part of `os.path.splitext` on a base name: cut at the last
dot, except when no character before that dot differs from a dot (Python
treats purely-leading dots as part of the name, e.g. `.bashrc`). -/
def splitextStem (b : String) : String :=
  let cs := b.toList
  let extLen := (cs.reverse.takeWhile (fun c => c ≠ '.')).length
  if extLen = cs.length then b
  else
    let d := cs.length - extLen - 1
    if (cs.take d).any (fun c => c ≠ '.') then String.mk (cs.take d) else b

/-- The task built by `main` for actor `i` and input file `file_name`:
the smoothed-CSV input path and the derived `.mp4` output path. -/
def mkTask (i : Nat) (file_name : String) : String × String :=
  let folder := folderName i
  let smoothed_csv_path := joinPath (joinPath csv_path folder) file_name
  let au_video_folder_path := joinPath video_path folder
  let video_basename := splitextStem (basename smoothed_csv_path)
  (smoothed_csv_path, joinPath au_video_folder_path (video_basename ++ ".mp4"))

/-! ## AU-video script: per-task renderer -/

/-- The result of `read_feat`: the loaded prediction table, abstracted to
its frame count and a per-frame oracle telling whether the plotting call
(`plot_face` on that row's AU vector) succeeds (`false` = it raises a
value error). -/
structure FeatPrediction where
  total_frames : Nat
  plot_ok : Nat → Bool

/-- The external world one task interacts with: whether the output file
already exists, and the outcomes of the fallible library calls. -/
structure TaskEnv where
  out_exists : Bool
  read_feat : Except String FeatPrediction
  get_writer : Except String Unit
  append_data : Nat → Except String Unit
  writer_close : Except String Unit

/-- Observable actions of one task. -/
inductive Effect where
  | loadCSV : Effect
  | plotAttempt : Nat → Effect
  | openWriter : Effect
  | appendData : Nat → Effect
  | closeWriter : Effect
deriving DecidableEq, Repr

/-- Body of the `for frame in range(total_frames)` loop of
`generate_au_plot_figures`: on success the figure (named by its frame)
is appended to `figs`, on a value error the frame index is appended to
`error_frames`. -/
def auPlotStep (plot_ok : Nat → Bool) (acc : List Nat × List Nat)
    (frame : Nat) : List Nat × List Nat :=
  if plot_ok frame then (acc.1 ++ [frame], acc.2) else (acc.1, acc.2 ++ [frame])

/-- `generate_au_plot_figures`: returns `(figs, error_frames)`. -/
def generate_au_plot_figures (plot_ok : Nat → Bool) (total_frames : Nat) :
    List Nat × List Nat :=
  (List.range total_frames).foldl (auPlotStep plot_ok) ([], [])

/-- The `for fig in figs` write loop of `generate_au_video_from_csv`:
each append either succeeds, extending the trace, or raises and aborts
the task. -/
def appendLoop (append_data : Nat → Except String Unit) (tr : List Effect) :
    List Nat → Except String (List Effect)
  | [] => Except.ok tr
  | f :: rest =>
    match append_data f with
    | Except.ok _ => appendLoop append_data (tr ++ [Effect.appendData f]) rest
    | Except.error e => Except.error e

/-- `generate_au_video_from_csv`: skip if the output exists, else load the
CSV, render all frames, open the writer, append every rendered figure in
list order, close the writer.  Returns the effect trace, or the first
uncaught exception. -/
def generate_au_video_from_csv (env : TaskEnv) : Except String (List Effect) :=
  if env.out_exists then Except.ok []
  else
    match env.read_feat with
    | Except.error e => Except.error e
    | Except.ok pred =>
      let figs := (generate_au_plot_figures pred.plot_ok pred.total_frames).1
      let tr0 := Effect.loadCSV ::
        (List.range pred.total_frames).map Effect.plotAttempt
      match env.get_writer with
      | Except.error e => Except.error e
      | Except.ok _ =>
        match appendLoop env.append_data (tr0 ++ [Effect.openWriter]) figs with
        | Except.error e => Except.error e
        | Except.ok tr =>
          match env.writer_close with
          | Except.error e => Except.error e
          | Except.ok _ => Except.ok (tr ++ [Effect.closeWriter])

/-- The frames appended to the video writer, in order, as recorded in a
trace. -/
def appendedFrames (tr : List Effect) : List Nat :=
  tr.filterMap (fun e =>
    match e with
    | Effect.appendData f => some f
    | _ => none)

/-- `Except` in its error state (an uncaught Python exception). -/
def exceptErrors {ε α : Type} : Except ε α → Bool
  | Except.error _ => true
  | Except.ok _ => false

/-- Interpretation of a trace on a file system mapping paths to video
contents (`none` = absent file): opening the writer creates the output
file empty, each append extends it. -/
def applyEffect (out : String) (fs : String → Option (List Nat)) :
    Effect → String → Option (List Nat)
  | Effect.openWriter => fun p => if p = out then some [] else fs p
  | Effect.appendData f => fun p =>
      if p = out then some ((fs out).getD [] ++ [f]) else fs p
  | _ => fs

/-- Run a whole trace against a file system. -/
def applyTrace (out : String) (fs : String → Option (List Nat))
    (tr : List Effect) : String → Option (List Nat) :=
  tr.foldl (applyEffect out) fs

/-! ## AU-video script: `main` -/

/-- The world `main` sees: which output actor directories exist, and
`os.listdir` of each input actor directory.  `isSong` is the module flag,
kept as a parameter so both settings can be stated. -/
structure MainEnv where
  dir_exists : Nat → Bool
  listdir : Nat → List String
  isSong : Bool

/-- The actor indices the enumeration loop actually processes: the
configured range, minus actor 18 when the song flag is set. -/
def processedActors (song : Bool) : List Nat :=
  (pyRange start_actor_num end_actor_num).filter (fun i => !(i == 18 && song))

/-- The actors for which `main` issues `os.makedirs`: the processed ones
whose output directory does not exist yet. -/
def mkdirActors (env : MainEnv) : List Nat :=
  (processedActors env.isSong).filter (fun i => !env.dir_exists i)

/-- The task list `main` builds: one task per file of each processed
actor's input directory, in loop order. -/
def mainTasks (env : MainEnv) : List (String × String) :=
  (processedActors env.isSong).flatMap (fun i => (env.listdir i).map (mkTask i))

/-- Observable actions of `main`: directory creations during enumeration,
then task dispatches to the pool. -/
inductive MainEvent where
  | mkdir : Nat → MainEvent
  | dispatch : String × String → MainEvent
deriving DecidableEq

/-- The event trace of `main`: all directory creations happen in the
enumeration loop, before the pool receives any task. -/
def mainTrace (env : MainEnv) : List MainEvent :=
  (mkdirActors env).map MainEvent.mkdir ++
    (mainTasks env).map MainEvent.dispatch

/-! ## Concrete environments used to instantiate the theorems -/

/-- A task environment whose output file already exists (the other fields
are irrelevant for the skip path; make them all fail to show they are
never consulted). -/
def envSkipW : TaskEnv :=
  { out_exists := true
    read_feat := Except.error "io"
    get_writer := Except.error "io"
    append_data := fun _ => Except.error "io"
    writer_close := Except.error "io" }

/-- Plot oracle failing exactly at frames 1 and 2. -/
def plotW : Nat → Bool := fun k => !(k == 1 || k == 2)

/-- A fully succeeding task environment over a 3-frame CSV whose frame 1
fails to plot. -/
def envOkW : TaskEnv :=
  { out_exists := false
    read_feat := Except.ok ⟨3, fun k => k != 1⟩
    get_writer := Except.ok ()
    append_data := fun _ => Except.ok ()
    writer_close := Except.ok () }

/-- A fully succeeding task environment over a 0-frame CSV. -/
def envEmptyW : TaskEnv :=
  { out_exists := false
    read_feat := Except.ok ⟨0, fun _ => true⟩
    get_writer := Except.ok ()
    append_data := fun _ => Except.ok ()
    writer_close := Except.ok () }

/-- Directory contents for the cleanup example: actor 3's directory holds
`02-a.mp4`, `01-b.mp4`, `02-c.mp4`; every other directory is empty. -/
def dirsW : Nat → List String := fun j =>
  if j = 3 then ["02-a.mp4", "01-b.mp4", "02-c.mp4"] else []

/-- A `main` environment where only actor 2's output directory exists. -/
def envMainW : MainEnv :=
  { dir_exists := fun i => i == 2
    listdir := fun _ => ["f.csv"]
    isSong := false }

/-- A `main` environment with the song flag enabled. -/
def envSongW : MainEnv :=
  { dir_exists := fun _ => false
    listdir := fun _ => ["a.csv"]
    isSong := true }

/-! ## Helper lemmas -/

/-- Unrolling the plot loop: the accumulators collect the successful and
the failing frames of `l`, in order. -/
theorem auPlotStep_foldl (plot_ok : Nat → Bool) (l : List Nat)
    (f0 e0 : List Nat) :
    l.foldl (auPlotStep plot_ok) (f0, e0) =
      (f0 ++ l.filter plot_ok, e0 ++ l.filter (fun k => !plot_ok k)) := by
  induction l generalizing f0 e0 with
  | nil => simp
  | cons a l ih =>
    by_cases h : plot_ok a
    · simp [auPlotStep, h, ih, List.filter_cons]
    · simp [auPlotStep, h, ih, List.filter_cons]

/-- `generate_au_plot_figures` returns exactly the plot-succeeding frames
as figures and the plot-failing frames as errors, each in ascending
order. -/
theorem generate_au_plot_figures_eq (plot_ok : Nat → Bool) (n : Nat) :
    generate_au_plot_figures plot_ok n =
      ((List.range n).filter plot_ok,
       (List.range n).filter (fun k => !plot_ok k)) := by
  simp [generate_au_plot_figures, auPlotStep_foldl]

/-- A filter of a list partitions its length with the negated filter. -/
theorem length_filter_not_add {α : Type} (p : α → Bool) (l : List α) :
    (l.filter p).length + (l.filter (fun a => !p a)).length = l.length := by
  induction l with
  | nil => rfl
  | cons a l ih => by_cases h : p a <;> simp [List.filter_cons, h] <;> omega

/-- Filtering `range n` for a single index below `n`. -/
theorem range_filter_beq_single (i n : Nat) (h : i < n) :
    (List.range n).filter (fun k => k == i) = [i] := by
  induction n with
  | zero => omega
  | succ n ih =>
    rw [List.range_succ, List.filter_append]
    by_cases hi : i = n
    · subst hi
      have h0 : (List.range i).filter (fun k => k == i) = [] := by
        apply List.filter_eq_nil_iff.mpr
        intro a ha
        have := List.mem_range.mp ha
        simp
        omega
      simp [h0]
    · have h' : i < n := by omega
      rw [ih h']
      have h1 : [n].filter (fun k => k == i) = [] := by
        simp
        omega
      simp [h1]

/-- Filtering `range n` for exactly two indices `i < j < n`. -/
theorem range_filter_beq_pair (i j n : Nat) (hij : i < j) (hjn : j < n) :
    (List.range n).filter (fun k => k == i || k == j) = [i, j] := by
  induction n with
  | zero => omega
  | succ n ih =>
    rw [List.range_succ, List.filter_append]
    by_cases hj : j = n
    · subst hj
      have h1 : (List.range j).filter (fun k => k == i || k == j) =
          (List.range j).filter (fun k => k == i) := by
        apply List.filter_congr
        intro x hx
        have := List.mem_range.mp hx
        simp
        omega
      rw [h1, range_filter_beq_single i j hij]
      simp
    · have h' : j < n := by omega
      rw [ih h']
      have h1 : [n].filter (fun k => k == i || k == j) = [] := by
        simp
        omega
      simp [h1]

/-- When every append succeeds, the write loop appends one `appendData`
effect per figure, in list order. -/
theorem appendLoop_ok (ap : Nat → Except String Unit) (figs : List Nat)
    (h : ∀ f ∈ figs, ap f = Except.ok ()) (tr : List Effect) :
    appendLoop ap tr figs = Except.ok (tr ++ figs.map Effect.appendData) := by
  induction figs generalizing tr with
  | nil => simp [appendLoop]
  | cons f rest ih =>
    have hf : ap f = Except.ok () := h f (by simp)
    rw [appendLoop, hf]
    rw [ih (fun g hg => h g (by simp [hg]))]
    simp

/-- The write loop raises exactly when some figure's append raises. -/
theorem appendLoop_error_iff (ap : Nat → Except String Unit) (figs : List Nat)
    (tr : List Effect) :
    exceptErrors (appendLoop ap tr figs) = true ↔
      ∃ f ∈ figs, exceptErrors (ap f) = true := by
  induction figs generalizing tr with
  | nil => simp [appendLoop, exceptErrors]
  | cons f rest ih =>
    cases hf : ap f with
    | ok u =>
      cases u
      rw [appendLoop, hf]
      rw [ih]
      constructor
      · rintro ⟨g, hg, he⟩
        exact ⟨g, List.mem_cons_of_mem f hg, he⟩
      · rintro ⟨g, hg, he⟩
        rcases List.mem_cons.mp hg with he' | hgr
        · subst he'
          rw [hf] at he
          exact absurd he (by simp [exceptErrors])
        · exact ⟨g, hgr, he⟩
    | error e =>
      rw [appendLoop, hf]
      simp [hf, exceptErrors]

/-- The full success trace of one task: load, all plot attempts, writer
open, one append per rendered figure, writer close. -/
theorem generate_au_video_ok (env : TaskEnv) (pred : FeatPrediction)
    (h0 : env.out_exists = false) (h1 : env.read_feat = Except.ok pred)
    (h2 : env.get_writer = Except.ok ())
    (h3 : ∀ f, env.append_data f = Except.ok ())
    (h4 : env.writer_close = Except.ok ()) :
    generate_au_video_from_csv env = Except.ok
      ((Effect.loadCSV :: (List.range pred.total_frames).map Effect.plotAttempt
          ++ [Effect.openWriter]) ++
        (generate_au_plot_figures pred.plot_ok pred.total_frames).1.map
          Effect.appendData ++ [Effect.closeWriter]) := by
  rw [generate_au_video_from_csv, h0]
  simp only [Bool.false_eq_true, if_false, h1]
  rw [appendLoop_ok env.append_data _ (fun f _ => h3 f), h2, h4]

/-- `appendedFrames` distributes over trace concatenation. -/
theorem appendedFrames_append (t1 t2 : List Effect) :
    appendedFrames (t1 ++ t2) = appendedFrames t1 ++ appendedFrames t2 := by
  simp [appendedFrames]

/-- Append effects record exactly their frames, in order. -/
theorem appendedFrames_map_appendData (l : List Nat) :
    appendedFrames (l.map Effect.appendData) = l := by
  induction l with
  | nil => rfl
  | cons a l ih =>
    simp only [List.map_cons, appendedFrames, List.filterMap_cons] at ih ⊢
    simp [ih]

/-- Plot attempts append nothing to the video. -/
theorem appendedFrames_map_plotAttempt (l : List Nat) :
    appendedFrames (l.map Effect.plotAttempt) = [] := by
  induction l with
  | nil => rfl
  | cons a l ih =>
    simp only [List.map_cons, appendedFrames, List.filterMap_cons] at ih ⊢
    simp [ih]

/-- The cleanup fold over a duplicate-free index list: directories outside
the list are untouched, each visited directory keeps exactly its
non-matching files, and the counter accumulates the number of matches. -/
theorem cleanup_foldl_spec (l : List Nat) (dirs : Nat → List String)
    (c0 : Nat) (hnd : l.Nodup) :
    (∀ j, j ∉ l → (l.foldl cleanupStep (dirs, c0)).1 j = dirs j) ∧
    (∀ j, j ∈ l → (l.foldl cleanupStep (dirs, c0)).1 j =
        (dirs j).filter (fun f => !matchGlob02 f)) ∧
    (l.foldl cleanupStep (dirs, c0)).2 =
      c0 + (l.map (fun i => ((dirs i).filter matchGlob02).length)).sum := by
  induction l generalizing dirs c0 with
  | nil => simp
  | cons i l ih =>
    have hi : i ∉ l := (List.nodup_cons.mp hnd).1
    have hnd' : l.Nodup := (List.nodup_cons.mp hnd).2
    have hstep : (i :: l).foldl cleanupStep (dirs, c0) =
        l.foldl cleanupStep
          (fun j => if j = i then (dirs i).filter (fun f => !matchGlob02 f)
            else dirs j,
           c0 + ((dirs i).filter matchGlob02).length) := by
      rw [List.foldl_cons]
      rfl
    obtain ⟨ha, hb, hc⟩ := ih
      (fun j => if j = i then (dirs i).filter (fun f => !matchGlob02 f)
        else dirs j)
      (c0 + ((dirs i).filter matchGlob02).length) hnd'
    refine ⟨?_, ?_, ?_⟩
    · intro j hj
      rw [hstep, ha j (fun hjl => hj (List.mem_cons_of_mem i hjl))]
      have hji : ¬j = i := fun he => hj (he ▸ List.mem_cons_self i l)
      simp [hji]
    · intro j hj
      rcases List.mem_cons.mp hj with he | hjl
      · subst he
        rw [hstep, ha j hi]
        simp
      · rw [hstep, hb j hjl]
        have hji : ¬j = i := fun he => hi (he ▸ hjl)
        simp [hji]
    · rw [hstep, hc]
      have hmap : l.map (fun k =>
          (((fun j => if j = i then (dirs i).filter (fun f => !matchGlob02 f)
              else dirs j) k).filter matchGlob02).length) =
          l.map (fun k => ((dirs k).filter matchGlob02).length) := by
        apply List.map_congr_left
        intro k hk
        have hki : ¬k = i := fun he => hi (he ▸ hk)
        simp [hki]
      simp only [hmap, List.map_cons, List.sum_cons]
      omega

/-! ## Claim theorems -/

/-- C1: if the output video file already exists when
`generate_au_video_from_csv` starts, the function returns with an empty
effect trace — no CSV load, no plot attempt, no writer effect — and
replaying that trace on any file system leaves every file, the existing
output included, byte-identical. -/
theorem au_video_skip_if_exists (env : TaskEnv)
    (h : env.out_exists = true) :
    generate_au_video_from_csv env = Except.ok [] ∧
    (∀ out fs, applyTrace out fs [] = fs) ∧
    appendedFrames ([] : List Effect) = [] := by
  refine ⟨?_, fun out fs => rfl, rfl⟩
  rw [generate_au_video_from_csv, h]
  rfl

/-- Witness for C1 at a concrete environment whose output file exists and
whose every other operation would fail if consulted. -/
theorem au_video_skip_if_exists_witness :
    generate_au_video_from_csv envSkipW = Except.ok [] ∧
    (∀ out fs, applyTrace out fs [] = fs) ∧
    appendedFrames ([] : List Effect) = [] :=
  au_video_skip_if_exists envSkipW rfl

/-- C2: when plotting fails with a value error at exactly two frames
`i < j` of an `n`-frame CSV and succeeds everywhere else,
`generate_au_plot_figures` returns `n - 2` figures and the error list
`[i, j]`, and the surrounding task still completes without raising. -/
theorem au_plot_two_value_errors (env : TaskEnv) (plot_ok : Nat → Bool)
    (n i j : Nat) (hij : i < j) (hjn : j < n)
    (hi : plot_ok i = false) (hj : plot_ok j = false)
    (hk : ∀ k, k < n → k ≠ i → k ≠ j → plot_ok k = true)
    (h0 : env.out_exists = false)
    (h1 : env.read_feat = Except.ok ⟨n, plot_ok⟩)
    (h2 : env.get_writer = Except.ok ())
    (h3 : ∀ f, env.append_data f = Except.ok ())
    (h4 : env.writer_close = Except.ok ()) :
    (generate_au_plot_figures plot_ok n).1.length = n - 2 ∧
    (generate_au_plot_figures plot_ok n).2 = [i, j] ∧
    exceptErrors (generate_au_video_from_csv env) = false := by
  have herr : (List.range n).filter (fun k => !plot_ok k) = [i, j] := by
    have hcong : (List.range n).filter (fun k => !plot_ok k) =
        (List.range n).filter (fun k => k == i || k == j) := by
      apply List.filter_congr
      intro x hx
      have hxn := List.mem_range.mp hx
      by_cases hxi : x = i
      · subst hxi
        simp [hi]
      · by_cases hxj : x = j
        · subst hxj
          simp [hj]
        · simp [hk x hxn hxi hxj, hxi, hxj]
    rw [hcong, range_filter_beq_pair i j n hij hjn]
  refine ⟨?_, ?_, ?_⟩
  · have hlen := length_filter_not_add plot_ok (List.range n)
    rw [generate_au_plot_figures_eq]
    rw [herr] at hlen
    simp only [List.length_range, List.length_cons, List.length_nil] at hlen
    show (List.filter plot_ok (List.range n)).length = n - 2
    omega
  · rw [generate_au_plot_figures_eq]
    exact herr
  · rw [generate_au_video_ok env ⟨n, plot_ok⟩ h0 h1 h2 h3 h4]
    rfl

/-- Witness for C2: four frames, plotting fails exactly at frames 1
and 2. -/
theorem au_plot_two_value_errors_witness :
    (generate_au_plot_figures plotW 4).1.length = 4 - 2 ∧
    (generate_au_plot_figures plotW 4).2 = [1, 2] ∧
    exceptErrors (generate_au_video_from_csv
      { out_exists := false
        read_feat := Except.ok ⟨4, plotW⟩
        get_writer := Except.ok ()
        append_data := fun _ => Except.ok ()
        writer_close := Except.ok () }) = false :=
  au_plot_two_value_errors _ plotW 4 1 2 (by decide) (by decide) (by decide)
    (by decide) (by decide) rfl rfl rfl (fun _ => rfl) rfl

/-- C3: on a fully successful task, the frames appended to the video
writer are exactly the successfully rendered frames, in the same
ascending order as the input CSV rows (a strictly increasing subsequence
of `0 .. total_frames - 1`). -/
theorem au_video_frame_order (env : TaskEnv) (pred : FeatPrediction)
    (h0 : env.out_exists = false) (h1 : env.read_feat = Except.ok pred)
    (h2 : env.get_writer = Except.ok ())
    (h3 : ∀ f, env.append_data f = Except.ok ())
    (h4 : env.writer_close = Except.ok ()) :
    ∃ tr, generate_au_video_from_csv env = Except.ok tr ∧
      appendedFrames tr = (List.range pred.total_frames).filter pred.plot_ok ∧
      List.Pairwise (· < ·) (appendedFrames tr) := by
  refine ⟨_, generate_au_video_ok env pred h0 h1 h2 h3 h4, ?_, ?_⟩
  · rw [appendedFrames_append, appendedFrames_append]
    have hpre : appendedFrames
        (Effect.loadCSV ::
          (List.range pred.total_frames).map Effect.plotAttempt ++
          [Effect.openWriter]) = [] := by
      simp only [appendedFrames, List.filterMap_cons, List.filterMap_append]
      have := appendedFrames_map_plotAttempt (List.range pred.total_frames)
      simp only [appendedFrames] at this
      simp [this]
    rw [hpre, appendedFrames_map_appendData]
    rw [generate_au_plot_figures_eq]
    simp [appendedFrames]
  · rw [appendedFrames_append, appendedFrames_append]
    have hpre : appendedFrames
        (Effect.loadCSV ::
          (List.range pred.total_frames).map Effect.plotAttempt ++
          [Effect.openWriter]) = [] := by
      simp only [appendedFrames, List.filterMap_cons, List.filterMap_append]
      have := appendedFrames_map_plotAttempt (List.range pred.total_frames)
      simp only [appendedFrames] at this
      simp [this]
    rw [hpre, appendedFrames_map_appendData]
    rw [generate_au_plot_figures_eq]
    simp only [List.nil_append]
    have hsor : List.Pairwise (· < ·) (List.range pred.total_frames) :=
      List.pairwise_lt_range pred.total_frames
    have : appendedFrames [Effect.closeWriter] = [] := rfl
    rw [this, List.append_nil]
    exact hsor.sublist (List.filter_sublist _)

/-- Witness for C3 at a concrete fully succeeding environment over a
3-frame CSV whose frame 1 fails to plot. -/
theorem au_video_frame_order_witness :
    ∃ tr, generate_au_video_from_csv envOkW = Except.ok tr ∧
      appendedFrames tr = (List.range 3).filter (fun k => k != 1) ∧
      List.Pairwise (· < ·) (appendedFrames tr) :=
  au_video_frame_order envOkW ⟨3, fun k => k != 1⟩ rfl rfl rfl
    (fun _ => rfl) rfl

/-- C6: on a 0-frame CSV the task completes without raising:
`generate_au_plot_figures` returns empty figure and error lists and the
trace shows a video opened and closed with no appended frame. -/
theorem au_video_empty_csv (env : TaskEnv) (pred : FeatPrediction)
    (h0 : env.out_exists = false) (h1 : env.read_feat = Except.ok pred)
    (hn : pred.total_frames = 0) (h2 : env.get_writer = Except.ok ())
    (h4 : env.writer_close = Except.ok ()) :
    generate_au_video_from_csv env =
      Except.ok [Effect.loadCSV, Effect.openWriter, Effect.closeWriter] ∧
    generate_au_plot_figures pred.plot_ok pred.total_frames = ([], []) ∧
    appendedFrames [Effect.loadCSV, Effect.openWriter, Effect.closeWriter]
      = [] := by
  have hfig : generate_au_plot_figures pred.plot_ok pred.total_frames
      = ([], []) := by
    rw [hn]
    rfl
  refine ⟨?_, hfig, rfl⟩
  rw [generate_au_video_from_csv, h0]
  simp only [Bool.false_eq_true, if_false, h1]
  rw [hn, h2, h4]
  rfl

/-- Witness for C6 at a concrete environment over a 0-frame CSV. -/
theorem au_video_empty_csv_witness :
    generate_au_video_from_csv envEmptyW =
      Except.ok [Effect.loadCSV, Effect.openWriter, Effect.closeWriter] ∧
    generate_au_plot_figures (fun _ => true) 0 = ([], []) ∧
    appendedFrames [Effect.loadCSV, Effect.openWriter, Effect.closeWriter]
      = [] :=
  au_video_empty_csv envEmptyW ⟨0, fun _ => true⟩ rfl rfl rfl rfl rfl

/-- C9: every frame index of the CSV ends up in exactly one of the two
results of `generate_au_plot_figures`: the figure count plus the error
count equals the frame count, and the error list is strictly increasing
(hence duplicate-free). -/
theorem au_plot_partition_invariant (plot_ok : Nat → Bool) (n : Nat) :
    (generate_au_plot_figures plot_ok n).1.length +
      (generate_au_plot_figures plot_ok n).2.length = n ∧
    List.Pairwise (· < ·) (generate_au_plot_figures plot_ok n).2 := by
  rw [generate_au_plot_figures_eq]
  constructor
  · have := length_filter_not_add plot_ok (List.range n)
    simpa using this
  · exact (List.pairwise_lt_range n).sublist (List.filter_sublist _)

/-- C5: `generate_au_video_from_csv` raises exactly when the CSV load or
a writer operation (open, one of the executed appends, close) raises;
per-frame plotting failures never make the task raise. -/
theorem au_video_error_iff_load_or_writer (env : TaskEnv) :
    exceptErrors (generate_au_video_from_csv env) = true ↔
      env.out_exists = false ∧
        (exceptErrors env.read_feat = true ∨
         ∃ pred, env.read_feat = Except.ok pred ∧
           (exceptErrors env.get_writer = true ∨
            (∃ f ∈ (generate_au_plot_figures pred.plot_ok
                pred.total_frames).1,
              exceptErrors (env.append_data f) = true) ∨
            exceptErrors env.writer_close = true)) := by
  rw [generate_au_video_from_csv]
  cases hex : env.out_exists with
  | true => simp [exceptErrors]
  | false =>
    simp only [Bool.false_eq_true, if_false, Bool.true_eq_false,
      true_and, false_and]
    cases hrf : env.read_feat with
    | error e => simp [exceptErrors]
    | ok pred =>
      have hok : exceptErrors (Except.ok pred (ε := String)) = false := rfl
      simp only [hok, Except.ok.injEq, false_or, Bool.false_eq_true,
        exists_eq_left']
      cases hgw : env.get_writer with
      | error e2 => simp [exceptErrors]
      | ok u =>
        cases u
        have hok2 : exceptErrors (Except.ok () (ε := String)) = false := rfl
        simp only [hok2, Bool.false_eq_true, false_or]
        cases hal : appendLoop env.append_data
            (Effect.loadCSV ::
              (List.range pred.total_frames).map Effect.plotAttempt ++
              [Effect.openWriter])
            (generate_au_plot_figures pred.plot_ok pred.total_frames).1 with
        | error e3 =>
          have happ : ∃ f ∈ (generate_au_plot_figures pred.plot_ok
              pred.total_frames).1,
              exceptErrors (env.append_data f) = true := by
            rw [← appendLoop_error_iff env.append_data _
              (Effect.loadCSV ::
                (List.range pred.total_frames).map Effect.plotAttempt ++
                [Effect.openWriter])]
            rw [hal]
            rfl
          exact iff_of_true rfl (Or.inl happ)
        | ok tr =>
          have happ : ¬∃ f ∈ (generate_au_plot_figures pred.plot_ok
              pred.total_frames).1,
              exceptErrors (env.append_data f) = true := by
            rw [← appendLoop_error_iff env.append_data _
              (Effect.loadCSV ::
                (List.range pred.total_frames).map Effect.plotAttempt ++
                [Effect.openWriter])]
            rw [hal]
            simp [exceptErrors]
          cases hwc : env.writer_close with
          | error e4 => exact iff_of_true rfl (Or.inr rfl)
          | ok u2 =>
            apply iff_of_false
            · intro h
              exact Bool.false_ne_true h
            · rintro (h | h)
              · exact happ h
              · exact Bool.false_ne_true h

/-- C4: for every actor index in the fixed cleanup range, the cleanup run
removes exactly the files matching `02-*.mp4` from that directory —
leaving precisely the non-matching files — and the final counter is the
total number of matches over all visited directories. -/
theorem cleanup_deletes_exactly_glob_matches (dirs : Nat → List String)
    (i : Nat) (hi : i ∈ RAVDESS_actor_indices) :
    (remove_video_only_file dirs).1 i =
      (dirs i).filter (fun f => !matchGlob02 f) ∧
    (remove_video_only_file dirs).2 =
      (RAVDESS_actor_indices.map
        (fun j => ((dirs j).filter matchGlob02).length)).sum := by
  have h := cleanup_foldl_spec RAVDESS_actor_indices dirs 0 (by decide)
  exact ⟨h.2.1 i hi, by simpa using h.2.2⟩

/-- Witness for C4: a directory holding `02-a.mp4`, `01-b.mp4`,
`02-c.mp4` keeps exactly `01-b.mp4` and the run reports 2 deletions. -/
theorem cleanup_deletes_exactly_glob_matches_witness :
    (remove_video_only_file dirsW).1 3 = ["01-b.mp4"] ∧
    (remove_video_only_file dirsW).2 = 2 := by
  have h := cleanup_deletes_exactly_glob_matches dirsW 3 (by decide)
  refine ⟨?_, ?_⟩
  · rw [h.1]
    decide
  · rw [h.2]
    decide

/-- C7: for every processed actor, `main` creates the output subdirectory
during enumeration exactly when it does not exist — the creation event is
in the enumeration prefix of the trace, which precedes every dispatch —
and attempts no creation when it already exists. -/
theorem main_creates_missing_output_dirs (env : MainEnv) (i : Nat)
    (hi : i ∈ processedActors env.isSong) :
    (env.dir_exists i = false →
       MainEvent.mkdir i ∈ (mkdirActors env).map MainEvent.mkdir) ∧
    (env.dir_exists i = true → MainEvent.mkdir i ∉ mainTrace env) ∧
    mainTrace env = (mkdirActors env).map MainEvent.mkdir ++
      (mainTasks env).map MainEvent.dispatch := by
  refine ⟨?_, ?_, rfl⟩
  · intro hne
    exact List.mem_map_of_mem _
      (List.mem_filter.mpr ⟨hi, by simp [hne]⟩)
  · intro hex hmem
    rcases List.mem_append.mp hmem with hm | hm
    · rcases List.mem_map.mp hm with ⟨j, hj, hje⟩
      injection hje with hji
      subst hji
      have hflt := (List.mem_filter.mp hj).2
      rw [hex] at hflt
      exact Bool.false_ne_true hflt
    · rcases List.mem_map.mp hm with ⟨t, ht, hte⟩
      exact MainEvent.noConfusion hte

/-- Witness for C7: with only actor 2's directory present, actor 1 gets a
creation event and actor 2 gets none. -/
theorem main_creates_missing_output_dirs_witness :
    (MainEvent.mkdir 1 ∈ (mkdirActors envMainW).map MainEvent.mkdir) ∧
    (MainEvent.mkdir 2 ∉ mainTrace envMainW) := by
  have h1 := main_creates_missing_output_dirs envMainW 1 (by decide)
  have h2 := main_creates_missing_output_dirs envMainW 2 (by decide)
  exact ⟨h1.1 rfl, h2.2.1 rfl⟩

/-- C8: with the song flag enabled, `main` processes every configured
actor except 18 — no directory creation and no task for actor 18 — and
with the flag disabled actor 18 is processed like any other actor in the
range. -/
theorem main_song_flag_excludes_actor_18 (env : MainEnv) :
    (env.isSong = true →
       processedActors env.isSong =
         (pyRange start_actor_num end_actor_num).filter (fun i => i != 18) ∧
       18 ∉ processedActors env.isSong ∧
       MainEvent.mkdir 18 ∉ mainTrace env ∧
       mainTasks env =
         ((pyRange start_actor_num end_actor_num).filter
             (fun i => i != 18)).flatMap
           (fun i => (env.listdir i).map (mkTask i))) ∧
    (env.isSong = false →
       processedActors env.isSong = pyRange start_actor_num end_actor_num ∧
       18 ∈ processedActors env.isSong) := by
  constructor
  · intro hs
    have hchar : processedActors true =
        (pyRange start_actor_num end_actor_num).filter (fun i => i != 18) :=
      by decide
    have h18 : (18 : Nat) ∉ processedActors true := by decide
    refine ⟨hs ▸ hchar, hs ▸ h18, ?_, ?_⟩
    · intro hmem
      rcases List.mem_append.mp hmem with hm | hm
      · rcases List.mem_map.mp hm with ⟨j, hj, hje⟩
        injection hje with hji
        subst hji
        have := (List.mem_filter.mp hj).1
        rw [hs] at this
        exact h18 this
      · rcases List.mem_map.mp hm with ⟨t, ht, hte⟩
        exact MainEvent.noConfusion hte
    · rw [mainTasks, hs, hchar]
  · intro hs
    rw [hs]
    exact ⟨by decide, by decide⟩

/-- Witness for C8: a concrete environment with the song flag enabled,
and one with it disabled. -/
theorem main_song_flag_excludes_actor_18_witness :
    (18 ∉ processedActors envSongW.isSong ∧
     MainEvent.mkdir 18 ∉ mainTrace envSongW) ∧
    18 ∈ processedActors envMainW.isSong := by
  have hs := (main_song_flag_excludes_actor_18 envSongW).1 rfl
  have hm := (main_song_flag_excludes_actor_18 envMainW).2 rfl
  exact ⟨⟨hs.2.1, hs.2.2.1⟩, hm.2⟩

/-- C10: both actor ranges are end-exclusive: with `start_actor_num = 1`
and `end_actor_num = 25`, `main` (under the configured `isSong = false`)
enumerates exactly actors 1 through 24, and the cleanup script's
`range(1, 25)` likewise visits exactly 1 through 24 — index 25 is never
processed by either script. -/
theorem end_exclusive_actor_range :
    start_actor_num = 1 ∧ end_actor_num = 25 ∧
    processedActors isSong =
      [1, 2, 3, 4, 5, 6, 7, 8, 9, 10, 11, 12, 13, 14, 15, 16, 17, 18, 19,
       20, 21, 22, 23, 24] ∧
    25 ∉ processedActors isSong ∧
    RAVDESS_actor_indices =
      [1, 2, 3, 4, 5, 6, 7, 8, 9, 10, 11, 12, 13, 14, 15, 16, 17, 18, 19,
       20, 21, 22, 23, 24] ∧
    25 ∉ RAVDESS_actor_indices := by
  decide

end FeltDataset
